import Mathlib

/-!
Verification of the CAN / CAN-FD PEAK-gateway UDP codec
(package can_peak_gateway, file src/can_peak_gateway/__init__.py).

The development shallowly embeds the protocol code:

* the ctypes big-endian header struct MessageHeader and its flag/mask
  accessors (28 bytes with _pack_ = 1);
* the protocol constants (MessageType values, FLAG_* bit masks, MASK_CAN_ID,
  MASK_CAN_ID_REMOTE_REQUEST, MASK_CAN_ID_EXTENDED_FRAME, fetch sizes);
* BusPeakGateway.send as the pure functions send_header, send_payload and
  send_datagram (the socket write itself is outside the codec);
* SocketReader as an explicit state (internal byte buffer plus a stream of
  pending socket events, each event being one recv outcome: a datagram's
  bytes, or a socket timeout);
* BusPeakGateway._recv_internal as recv_internal over that reader state,
  with a raised TimeoutError / ValueError made explicit in the result type.

Machine integers are Nat with explicit reductions modulo 2^width at the
points where ctypes field assignment truncates.  Bytes are Nat values; the
wall-clock receive timestamp is omitted (it is not part of the codec).
Field and function names follow the Python source wherever Lean permits.
-/

namespace CanPeakGateway

/-- MessageType.CAN_FRAME = 0x80 (classic CAN data frame). -/
def CAN_FRAME : Nat := 0x80

/-- MessageType.CAN_FRAME_CRC = 0x81 (classic CAN frame with CRC trailer). -/
def CAN_FRAME_CRC : Nat := 0x81

/-- MessageType.CAN_FD_FRAME = 0x90 (CAN FD frame). -/
def CAN_FD_FRAME : Nat := 0x90

/-- MessageType.CAN_FD_FRAME_CRC = 0x91 (CAN FD frame with CRC trailer). -/
def CAN_FD_FRAME_CRC : Nat := 0x91

def FLAG_REMOTE_REQUEST : Nat := 0x01

def FLAG_EXTENDED_IDENTIFIER : Nat := 0x02

def FLAG_EXTENDED_DATA_LENGTH : Nat := 0x10

/-- As in the source: FLAG_BITRATE_SWITCH = 0x30 (bits 4 and 5). -/
def FLAG_BITRATE_SWITCH : Nat := 0x30

def FLAG_ERROR_STATE : Nat := 0x40

/-- MASK_CAN_ID = (1 << 28) - 1. -/
def MASK_CAN_ID : Nat := (1 <<< 28) - 1

/-- MASK_CAN_ID_REMOTE_REQUEST = 1 << 30. -/
def MASK_CAN_ID_REMOTE_REQUEST : Nat := 1 <<< 30

/-- MASK_CAN_ID_EXTENDED_FRAME = 1 << 31. -/
def MASK_CAN_ID_EXTENDED_FRAME : Nat := 1 <<< 31

def FETCH_SIZE_STANDARD_FRAME : Nat := 8

def FETCH_SIZE_OPTIONAL_CRC : Nat := 4

/-- The ctypes BigEndianStructure MessageHeader (_pack_ = 1).  Every field is
a Nat standing for the unsigned machine integer of the declared width:
packet_size, frame_kind, frame_flags are c_uint16; unused_tag is c_uint64;
timestamp_low, timestamp_high, frame_id_raw are c_uint32; channel and
frame_size are c_uint8. -/
structure MessageHeader where
  packet_size : Nat
  frame_kind : Nat
  unused_tag : Nat
  timestamp_low : Nat
  timestamp_high : Nat
  channel : Nat
  frame_size : Nat
  frame_flags : Nat
  frame_id_raw : Nat
  deriving DecidableEq

/-- sizeof(MessageHeader) = 2 + 2 + 8 + 4 + 4 + 1 + 1 + 2 + 4 = 28 bytes. -/
def sizeofMessageHeader : Nat := 28

/-- Big-endian serialization of a w-byte unsigned integer (value reduced
modulo 256 ^ w, as the ctypes field stores only its declared width). -/
def beBytes : Nat → Nat → List Nat
  | 0, _ => []
  | w + 1, v => beBytes w (v / 256) ++ [v % 256]

/-- Big-endian value of a byte list. -/
def beVal (bs : List Nat) : Nat :=
  bs.foldl (fun a b => a * 256 + b) 0

/-- bytearray(header): the 28 header bytes, big-endian, in field order. -/
def MessageHeader.toBytes (h : MessageHeader) : List Nat :=
  beBytes 2 h.packet_size ++ beBytes 2 h.frame_kind ++ beBytes 8 h.unused_tag ++
  beBytes 4 h.timestamp_low ++ beBytes 4 h.timestamp_high ++ beBytes 1 h.channel ++
  beBytes 1 h.frame_size ++ beBytes 2 h.frame_flags ++ beBytes 4 h.frame_id_raw

/-- MessageHeader.from_buffer_copy: parse the big-endian fields from a byte
buffer; a buffer shorter than sizeof(MessageHeader) raises ValueError,
modelled as none. -/
def from_buffer_copy (bs : List Nat) : Option MessageHeader :=
  if bs.length < sizeofMessageHeader then none
  else
    let r1 := bs.drop 2
    let r2 := r1.drop 2
    let r3 := r2.drop 8
    let r4 := r3.drop 4
    let r5 := r4.drop 4
    let r6 := r5.drop 1
    let r7 := r6.drop 1
    let r8 := r7.drop 2
    some {
      packet_size := beVal (bs.take 2)
      frame_kind := beVal (r1.take 2)
      unused_tag := beVal (r2.take 8)
      timestamp_low := beVal (r3.take 4)
      timestamp_high := beVal (r4.take 4)
      channel := beVal (r5.take 1)
      frame_size := beVal (r6.take 1)
      frame_flags := beVal (r7.take 2)
      frame_id_raw := beVal (r8.take 4) }

/-- property flag_remote_request_frame: frame_flags & FLAG_REMOTE_REQUEST. -/
def MessageHeader.flag_remote_request_frame (h : MessageHeader) : Bool :=
  h.frame_flags &&& FLAG_REMOTE_REQUEST != 0

/-- property flag_extended_data_length: as in the source it tests
frame_flags & FLAG_BITRATE_SWITCH (not FLAG_EXTENDED_DATA_LENGTH). -/
def MessageHeader.flag_extended_data_length (h : MessageHeader) : Bool :=
  h.frame_flags &&& FLAG_BITRATE_SWITCH != 0

/-- property flag_activated_bitrate_switch: frame_flags & FLAG_BITRATE_SWITCH. -/
def MessageHeader.flag_activated_bitrate_switch (h : MessageHeader) : Bool :=
  h.frame_flags &&& FLAG_BITRATE_SWITCH != 0

/-- property flag_error_state_indicator: frame_flags & FLAG_ERROR_STATE. -/
def MessageHeader.flag_error_state_indicator (h : MessageHeader) : Bool :=
  h.frame_flags &&& FLAG_ERROR_STATE != 0

/-- property frame_extended_id: frame_id_raw & MASK_CAN_ID_EXTENDED_FRAME. -/
def MessageHeader.frame_extended_id (h : MessageHeader) : Bool :=
  h.frame_id_raw &&& MASK_CAN_ID_EXTENDED_FRAME != 0

/-- property frame_id: frame_id_raw & MASK_CAN_ID. -/
def MessageHeader.frame_id (h : MessageHeader) : Nat :=
  h.frame_id_raw &&& MASK_CAN_ID

/-- The python-can Message fields the codec touches, with python-can's
defaults (is_extended_id defaults to true there).  The wall-clock timestamp
set on receive is omitted: it is not part of the wire codec. -/
structure Message where
  arbitration_id : Nat := 0
  dlc : Nat := 0
  data : List Nat := []
  is_extended_id : Bool := true
  is_remote_frame : Bool := false
  is_error_frame : Bool := false
  is_fd : Bool := false
  bitrate_switch : Bool := false
  deriving DecidableEq

/-- The header BusPeakGateway.send builds for a message, mirroring the
source statement by statement.  ctypes truncation modulo the field width is
written explicitly at each assignment. -/
def send_header (msg : Message) : MessageHeader :=
  let header : MessageHeader := {
    packet_size := sizeofMessageHeader % 2 ^ 16
    frame_kind := 0
    unused_tag := 0
    timestamp_low := 0
    timestamp_high := 0
    channel := 0
    frame_size := msg.dlc % 2 ^ 8
    frame_flags := 0
    frame_id_raw := msg.arbitration_id % 2 ^ 32 }
  let header :=
    if msg.is_fd then
      { header with
        packet_size := (header.packet_size + msg.dlc) % 2 ^ 16
        frame_kind := CAN_FD_FRAME }
    else
      let header := { header with
        packet_size := (header.packet_size + FETCH_SIZE_STANDARD_FRAME) % 2 ^ 16
        frame_kind := CAN_FRAME }
      if msg.is_remote_frame then
        { header with
          frame_flags := header.frame_flags ||| FLAG_REMOTE_REQUEST
          frame_id_raw := header.frame_id_raw ||| MASK_CAN_ID_REMOTE_REQUEST }
      else header
  let header :=
    if msg.is_extended_id then
      { header with frame_flags := header.frame_flags ||| FLAG_EXTENDED_IDENTIFIER }
    else header
  let header :=
    if msg.is_error_frame then
      { header with frame_flags := header.frame_flags ||| FLAG_ERROR_STATE }
    else header
  let header :=
    if msg.bitrate_switch then
      { header with frame_flags := header.frame_flags ||| FLAG_BITRATE_SWITCH }
    else header
  header

/-- The payload bytes BusPeakGateway.send appends after the header: the FD
payload verbatim, or the classic payload written into an 8-byte zero buffer
(Python slice assignment grows the buffer when the data is longer). -/
def send_payload (msg : Message) : List Nat :=
  if msg.is_fd then msg.data
  else msg.data ++ List.replicate (FETCH_SIZE_STANDARD_FRAME - msg.data.length) 0

/-- The complete outbound datagram: header bytes followed by the payload. -/
def send_datagram (msg : Message) : List Nat :=
  (send_header msg).toBytes ++ send_payload msg

/-- One outcome of an underlying socket recv: a datagram's bytes, or a
socket timeout (socket.recv raising TimeoutError). -/
inductive RecvEvent
  | timedOut
  | bytes (bs : List Nat)
  deriving DecidableEq

/-- The SocketReader state: its internal byte buffer, together with the
stream of pending socket recv outcomes (the environment of the reader). -/
structure ReaderState where
  buffer : List Nat
  events : List RecvEvent
  deriving DecidableEq

/-- Result of SocketReader.read: the requested bytes, or a raised
TimeoutError. -/
inductive ReadResult
  | bytes (bs : List Nat)
  | timedOut
  deriving DecidableEq

/-- SocketReader.read(size, timeout): if the buffer holds fewer than size
bytes, perform exactly one socket recv (consuming one event; an empty event
stream behaves as a recv that times out) and append its bytes; then return
the first size buffered bytes and retain the rest.  Note the source never
loops: one recv at most, and the slice may be shorter than size. -/
def SocketReader.read (size : Nat) (st : ReaderState) : ReadResult × ReaderState :=
  if st.buffer.length < size then
    match st.events with
    | [] => (.timedOut, st)
    | .timedOut :: rest => (.timedOut, { st with events := rest })
    | .bytes bs :: rest =>
      let buf := st.buffer ++ bs
      (.bytes (buf.take size), { buffer := buf.drop size, events := rest })
  else
    (.bytes (st.buffer.take size), { st with buffer := st.buffer.drop size })

/-- What BusPeakGateway._recv_internal does, observably: return the tuple
(message-or-none, filtered=false), or let an exception escape.  The only
exceptions the body can raise past its own handler are the TimeoutError of
the payload / CRC reads (outside the try block) and the ValueError of
from_buffer_copy on a short header buffer. -/
inductive RecvResult
  | returned (msg : Option Message) (filtered : Bool)
  | raisedTimeout
  | raisedValue
  deriving DecidableEq

/-- Observable outcome of one _recv_internal call: its result, whether the
unknown-frame-kind warning was logged, and the reader state afterwards. -/
structure RecvOutcome where
  result : RecvResult
  warned : Bool
  state : ReaderState
  deriving DecidableEq

/-- fetch_crc as computed by the source:
frame_kind in {CAN_FRAME_CRC | CAN_FD_FRAME_CRC}, i.e. membership in the
one-element set holding the bitwise OR 0x81 ||| 0x91 = 0x91. -/
def fetchCrc (frame_kind : Nat) : Bool :=
  frame_kind == (CAN_FRAME_CRC ||| CAN_FD_FRAME_CRC)

/-- The tail of _recv_internal after the frame-kind dispatch: the payload
read, the optional CRC read (read and discarded unvalidated), and the
construction of the returned Message.  A TimeoutError here is not caught. -/
def finishDecode (st1 : ReaderState) (header : MessageHeader) (fetch_crc : Bool)
    (fetch_size : Nat) (base : Message) : RecvOutcome :=
  match SocketReader.read fetch_size st1 with
  | (.timedOut, st2) => ⟨.raisedTimeout, false, st2⟩
  | (.bytes payload_data, st2) =>
    match (if fetch_crc then SocketReader.read FETCH_SIZE_OPTIONAL_CRC st2
           else (.bytes [], st2)) with
    | (.timedOut, st3) => ⟨.raisedTimeout, false, st3⟩
    | (.bytes _, st3) =>
      ⟨.returned (some { base with
          arbitration_id := header.frame_id
          is_extended_id := header.frame_extended_id
          dlc := header.frame_size
          data := payload_data.take header.frame_size }) false, false, st3⟩

/-- BusPeakGateway._recv_internal: read and parse the 28 header bytes (a
TimeoutError there is caught and becomes (none, false)), dispatch on
frame_kind (unknown kinds log a warning and give (none, false)), then read
the payload and the optional CRC trailer and build the Message. -/
def recv_internal (st : ReaderState) : RecvOutcome :=
  match SocketReader.read sizeofMessageHeader st with
  | (.timedOut, st1) => ⟨.returned none false, false, st1⟩
  | (.bytes header_data, st1) =>
    match from_buffer_copy header_data with
    | none => ⟨.raisedValue, false, st1⟩
    | some header =>
      let fetch_crc := fetchCrc header.frame_kind
      if header.frame_kind = CAN_FRAME ∨ header.frame_kind = CAN_FRAME_CRC then
        finishDecode st1 header fetch_crc FETCH_SIZE_STANDARD_FRAME
          { is_remote_frame := header.flag_remote_request_frame }
      else if header.frame_kind = CAN_FD_FRAME ∨ header.frame_kind = CAN_FD_FRAME_CRC then
        finishDecode st1 header fetch_crc header.frame_size
          { is_fd := true
            is_error_frame := header.flag_error_state_indicator
            bitrate_switch := header.flag_activated_bitrate_switch }
      else ⟨.returned none false, true, st1⟩

/-- The four frame kinds the dispatch recognises. -/
def knownKind (k : Nat) : Bool :=
  k == CAN_FRAME || k == CAN_FRAME_CRC || k == CAN_FD_FRAME || k == CAN_FD_FRAME_CRC

/-- The payload read size the dispatch selects: frame_size for the FD kinds,
FETCH_SIZE_STANDARD_FRAME otherwise. -/
def fetchSize (h : MessageHeader) : Nat :=
  if h.frame_kind = CAN_FD_FRAME ∨ h.frame_kind = CAN_FD_FRAME_CRC then h.frame_size
  else FETCH_SIZE_STANDARD_FRAME

end CanPeakGateway


namespace CanPeakGateway

/-! ### Serialization lemmas -/

theorem beBytes_length (w v : Nat) : (beBytes w v).length = w := by
  induction w generalizing v with
  | zero => simp [beBytes]
  | succ n ih => simp [beBytes, ih]

theorem beVal_beBytes (w v : Nat) : beVal (beBytes w v) = v % 256 ^ w := by
  induction w generalizing v with
  | zero => simp [beBytes, beVal]; omega
  | succ n ih =>
    have h1 : beVal (beBytes (n + 1) v) = beVal (beBytes n (v / 256)) * 256 + v % 256 := by
      simp [beBytes, beVal, List.foldl_append]
    rw [h1, ih, pow_succ', Nat.mod_mul]
    omega

theorem beVal_beBytes_of_lt {w v m : Nat} (hm : 256 ^ w = m) (hv : v < m) :
    beVal (beBytes w v) = v := by
  rw [beVal_beBytes, hm]
  exact Nat.mod_eq_of_lt hv

theorem take_beBytes (w v : Nat) (rest : List Nat) :
    ((beBytes w v) ++ rest).take w = beBytes w v :=
  List.take_left' (beBytes_length w v)

theorem drop_beBytes (w v : Nat) (rest : List Nat) :
    ((beBytes w v) ++ rest).drop w = rest :=
  List.drop_left' (beBytes_length w v)

theorem take_beBytes_self (w v : Nat) : (beBytes w v).take w = beBytes w v :=
  List.take_of_length_le (le_of_eq (beBytes_length w v))

theorem toBytes_length (h : MessageHeader) : h.toBytes.length = 28 := by
  simp [MessageHeader.toBytes, beBytes_length]

/-- Parsing the serialized header recovers the header, provided every field
value fits its declared ctypes width (as every header the encoder builds
does). -/
theorem from_buffer_copy_toBytes (h : MessageHeader)
    (h1 : h.packet_size < 65536) (h2 : h.frame_kind < 65536)
    (h3 : h.unused_tag < 18446744073709551616)
    (h4 : h.timestamp_low < 4294967296) (h5 : h.timestamp_high < 4294967296)
    (h6 : h.channel < 256) (h7 : h.frame_size < 256)
    (h8 : h.frame_flags < 65536) (h9 : h.frame_id_raw < 4294967296) :
    from_buffer_copy h.toBytes = some h := by
  have hlen : h.toBytes.length = 28 := toBytes_length h
  rw [from_buffer_copy, if_neg (by rw [hlen]; decide)]
  simp only [MessageHeader.toBytes, List.append_assoc, take_beBytes, drop_beBytes,
    take_beBytes_self]
  rw [beVal_beBytes_of_lt (by norm_num) h1, beVal_beBytes_of_lt (by norm_num) h2,
    beVal_beBytes_of_lt (by norm_num) h3, beVal_beBytes_of_lt (by norm_num) h4,
    beVal_beBytes_of_lt (by norm_num) h5, beVal_beBytes_of_lt (by norm_num) h6,
    beVal_beBytes_of_lt (by norm_num) h7, beVal_beBytes_of_lt (by norm_num) h8,
    beVal_beBytes_of_lt (by norm_num) h9]

/-! ### Bitwise helper lemmas -/

theorem nat_or_and_distrib_right (x y m : Nat) :
    (x ||| y) &&& m = (x &&& m) ||| (y &&& m) := by
  apply Nat.eq_of_testBit_eq
  intro i
  rw [Nat.testBit_and, Nat.testBit_or, Nat.testBit_or, Nat.testBit_and, Nat.testBit_and]
  cases x.testBit i <;> cases y.testBit i <;> cases m.testBit i <;> rfl

theorem and_two_pow_eq_zero_of_lt {x n : Nat} (h : x < 2 ^ n) : x &&& 2 ^ n = 0 := by
  rw [Nat.and_two_pow, Nat.testBit_lt_two_pow h]
  simp

theorem and_MASK_CAN_ID_of_lt {x : Nat} (h : x < 2 ^ 28) : x &&& MASK_CAN_ID = x := by
  have hm : MASK_CAN_ID = 2 ^ 28 - 1 := by decide
  rw [hm, Nat.and_pow_two_sub_one_eq_mod]
  exact Nat.mod_eq_of_lt h

theorem or_bit30_and_MASK_CAN_ID {x : Nat} (h : x < 2 ^ 28) :
    (x ||| MASK_CAN_ID_REMOTE_REQUEST) &&& MASK_CAN_ID = x := by
  rw [nat_or_and_distrib_right, and_MASK_CAN_ID_of_lt h]
  have : MASK_CAN_ID_REMOTE_REQUEST &&& MASK_CAN_ID = 0 := by decide
  rw [this, Nat.or_zero]

theorem and_EXTENDED_FRAME_of_lt {x : Nat} (h : x < 2 ^ 31) :
    x &&& MASK_CAN_ID_EXTENDED_FRAME = 0 := by
  have hm : MASK_CAN_ID_EXTENDED_FRAME = 2 ^ 31 := by decide
  rw [hm]
  exact and_two_pow_eq_zero_of_lt h

theorem or_bit30_and_EXTENDED_FRAME {x : Nat} (h : x < 2 ^ 28) :
    (x ||| MASK_CAN_ID_REMOTE_REQUEST) &&& MASK_CAN_ID_EXTENDED_FRAME = 0 := by
  rw [nat_or_and_distrib_right,
    and_EXTENDED_FRAME_of_lt (lt_trans h (by norm_num))]
  decide

theorem and_REMOTE_REQUEST_of_lt {x : Nat} (h : x < 2 ^ 30) :
    x &&& MASK_CAN_ID_REMOTE_REQUEST = 0 := by
  have hm : MASK_CAN_ID_REMOTE_REQUEST = 2 ^ 30 := by decide
  rw [hm]
  exact and_two_pow_eq_zero_of_lt h

end CanPeakGateway

namespace CanPeakGateway

/-! ### Concrete inputs used by the claim theorems -/

/-- A parsed header of kind CAN_FRAME_CRC (0x81) with frame_size 3. -/
def c1hdrA : MessageHeader :=
  { packet_size := 40, frame_kind := 0x81, unused_tag := 0, timestamp_low := 0, timestamp_high := 0, channel := 0, frame_size := 3, frame_flags := 0, frame_id_raw := 5 }

/-- Reader holding one CAN_FRAME_CRC datagram: header, 8 payload bytes and a
4-byte CRC trailer. -/
def c1stA : ReaderState := ⟨c1hdrA.toBytes ++ [1, 2, 3, 4, 5, 6, 7, 8] ++ [9, 9, 9, 9], []⟩

/-- The message the decoder returns for c1stA. -/
def c1msgA : Message := { arbitration_id := 5, dlc := 3, data := [1, 2, 3], is_extended_id := false }

/-- A parsed header of kind CAN_FD_FRAME_CRC (0x91) with frame_size 8. -/
def c1hdrB : MessageHeader :=
  { packet_size := 40, frame_kind := 0x91, unused_tag := 0, timestamp_low := 0, timestamp_high := 0, channel := 0, frame_size := 8, frame_flags := 0, frame_id_raw := 5 }

/-- Reader holding one CAN_FD_FRAME_CRC datagram: header, 8 payload bytes and
a 4-byte CRC trailer. -/
def c1stB : ReaderState := ⟨c1hdrB.toBytes ++ [1, 2, 3, 4, 5, 6, 7, 8] ++ [9, 9, 9, 9], []⟩

/-- C1: the decode path computes fetch_crc by membership in the one-element
set containing CAN_FRAME_CRC ||| CAN_FD_FRAME_CRC = 0x91, not the two-element
set of CRC kinds, so fetch_crc is FALSE for a CAN_FRAME_CRC (0x81) header and
the 4-byte CRC trailer of such a datagram is left unread in the buffer, while
a CAN_FD_FRAME_CRC (0x91) datagram does have its trailer read and discarded.
This refutes the claimed equivalence of fetch_crc with membership in the two
CRC-variant kinds: the intended two-element set test was written as a bitwise
OR in the source. -/
theorem C1_fetch_crc_code_bug :
    fetchCrc CAN_FRAME_CRC = false ∧
    fetchCrc CAN_FD_FRAME_CRC = true ∧
    (CAN_FRAME_CRC ||| CAN_FD_FRAME_CRC) = CAN_FD_FRAME_CRC ∧
    recv_internal c1stA =
      ⟨.returned (some c1msgA) false, false, ⟨[9, 9, 9, 9], []⟩⟩ ∧
    (recv_internal c1stB).state.buffer = [] := by decide

/-- The frame with bitrate_switch set and every other flag clear. -/
def c8msg : Message :=
  { arbitration_id := 0, dlc := 0, data := [], is_extended_id := false, is_fd := true, bitrate_switch := true }

/-- C8: the source constant FLAG_BITRATE_SWITCH is 0x30, not the claimed
0x20, so encoding a frame with only bitrate_switch set produces frame_flags
0x30: bit5 is set but bit4 (the FD marker, the separately defined constant
FLAG_EXTENDED_DATA_LENGTH = 0x10) is set as well, contradicting the claim
that every bit other than bit5 stays clear. -/
theorem C8_bitrate_switch_code_bug :
    FLAG_BITRATE_SWITCH = 0x30 ∧
    (send_header c8msg).frame_flags = 0x30 ∧
    (send_header c8msg).frame_flags &&& 0x20 ≠ 0 ∧
    (send_header c8msg).frame_flags &&& FLAG_EXTENDED_DATA_LENGTH ≠ 0 := by decide

/-- The classic frame of Scenario C: id 0x1FFFFFFF, extended, remote. -/
def c5msg : Message :=
  { arbitration_id := 0x1FFFFFFF, dlc := 0, data := [], is_extended_id := true, is_remote_frame := true, is_fd := false }

/-- Reader holding exactly the datagram the encoder produces for c5msg. -/
def c5st : ReaderState := ⟨[], [RecvEvent.bytes (send_datagram c5msg)]⟩

/-- The message the decoder returns for that datagram. -/
def c5decoded : Message :=
  { arbitration_id := 0x0FFFFFFF, dlc := 0, data := [], is_extended_id := false, is_remote_frame := true }

/-- C5: encoding Scenario C's frame sets frame_id_raw to
0x1FFFFFFF ||| (1 <<< 30) only: the encoder never sets bit31
(MASK_CAN_ID_EXTENDED_FRAME), signalling the extended id only in
frame_flags bit1, while the decoder reads bit31; flag bit0 is set as
claimed, but decoding recovers extended_id = false and arbitration_id =
0x0FFFFFFF (the 28-bit MASK_CAN_ID), not the claimed true / 0x1FFFFFFF.
Only remote_frame survives the round trip. -/
theorem C5_extended_id_code_bug :
    (send_header c5msg).frame_id_raw = 0x1FFFFFFF ||| (1 <<< 30) ∧
    (send_header c5msg).frame_id_raw ≠ 0x1FFFFFFF ||| (1 <<< 30) ||| (1 <<< 31) ∧
    (send_header c5msg).frame_id_raw &&& MASK_CAN_ID_EXTENDED_FRAME = 0 ∧
    (send_header c5msg).frame_flags &&& FLAG_REMOTE_REQUEST ≠ 0 ∧
    (send_header c5msg).frame_flags = 0x03 ∧
    recv_internal c5st = ⟨.returned (some c5decoded) false, false, ⟨[], []⟩⟩ ∧
    c5decoded.is_extended_id = false ∧
    c5decoded.arbitration_id ≠ 0x1FFFFFFF ∧
    c5decoded.is_remote_frame = true := by decide

/-- C6: whenever the header read succeeds and parses to a frame_kind that is
none of the four known kinds, _recv_internal logs the warning and returns
(none, false); no exception reaches the caller. -/
theorem C6_unknown_kind (st : ReaderState) (header_data : List Nat)
    (st1 : ReaderState) (h : MessageHeader)
    (hread : SocketReader.read sizeofMessageHeader st = (.bytes header_data, st1))
    (hparse : from_buffer_copy header_data = some h)
    (h1 : h.frame_kind ≠ CAN_FRAME) (h2 : h.frame_kind ≠ CAN_FRAME_CRC)
    (h3 : h.frame_kind ≠ CAN_FD_FRAME) (h4 : h.frame_kind ≠ CAN_FD_FRAME_CRC) :
    recv_internal st = ⟨.returned none false, true, st1⟩ := by
  simp only [recv_internal, hread, hparse]
  rw [if_neg (by simp [h1, h2]), if_neg (by simp [h3, h4])]

/-- Reader whose buffer holds a 28-byte header with frame_kind 0x00. -/
def c6st : ReaderState := ⟨List.replicate 28 0, []⟩

/-- The all-zero header c6st parses to. -/
def c6hdr : MessageHeader :=
  { packet_size := 0, frame_kind := 0, unused_tag := 0, timestamp_low := 0, timestamp_high := 0, channel := 0, frame_size := 0, frame_flags := 0, frame_id_raw := 0 }

/-- Witness for C6 at frame_kind = 0x00. -/
theorem C6_unknown_kind_witness :
    recv_internal c6st = ⟨.returned none false, true, ⟨[], []⟩⟩ :=
  C6_unknown_kind c6st (List.replicate 28 0) ⟨[], []⟩ c6hdr (by decide) (by decide)
    (by decide) (by decide) (by decide) (by decide)

/-- C3 fails as stated: with an empty buffer and a single underlying recv
that delivers only 3 bytes, read(5) returns those 3 bytes - fewer than
requested and no Timeout. -/
theorem C3_counterexample :
    SocketReader.read 5 ⟨[], [RecvEvent.bytes [1, 2, 3]]⟩ =
      (.bytes [1, 2, 3], ⟨[], []⟩) ∧
    ([1, 2, 3] : List Nat).length ≠ 5 := by decide

/-- C3 amended: read(n) returns exactly n bytes when the buffer already
holds n, or when the single replenishing receive (the source never loops)
brings it to n; it fails with Timeout when that receive times out; when the
single receive delivers too few bytes the result is shorter than n. -/
theorem C3_read_amended (n : Nat) (st : ReaderState) :
    (n ≤ st.buffer.length →
      SocketReader.read n st =
        (.bytes (st.buffer.take n), { st with buffer := st.buffer.drop n }) ∧
      (st.buffer.take n).length = n) ∧
    (∀ bs rest, st.buffer.length < n → st.events = RecvEvent.bytes bs :: rest →
      n ≤ st.buffer.length + bs.length →
      SocketReader.read n st =
        (.bytes ((st.buffer ++ bs).take n), ⟨(st.buffer ++ bs).drop n, rest⟩) ∧
      ((st.buffer ++ bs).take n).length = n) ∧
    (st.buffer.length < n → st.events.head? = some RecvEvent.timedOut →
      (SocketReader.read n st).1 = ReadResult.timedOut) := by
  refine ⟨fun hn => ?_, fun bs rest hlt hev hn => ?_, fun hlt hev => ?_⟩
  · rw [SocketReader.read, if_neg (not_lt.mpr hn)]
    exact ⟨rfl, by rw [List.length_take]; omega⟩
  · rw [SocketReader.read, if_pos hlt, hev]
    exact ⟨rfl, by rw [List.length_take, List.length_append]; omega⟩
  · cases hevs : st.events with
    | nil => rw [hevs] at hev; cases hev
    | cons e rest =>
      rw [hevs] at hev
      cases e with
      | timedOut => rw [SocketReader.read, if_pos hlt, hevs]
      | bytes bs => simp at hev

/-- Witness for C3 amended: a buffered read, a read satisfied by one recv,
and a read that times out. -/
theorem C3_read_amended_witness :
    (SocketReader.read 2 ⟨[5, 6, 7], []⟩ = (.bytes [5, 6], ⟨[7], []⟩) ∧
      (([5, 6, 7] : List Nat).take 2).length = 2) ∧
    (SocketReader.read 3 ⟨[5], [RecvEvent.bytes [6, 7]]⟩ =
        (.bytes [5, 6, 7], ⟨[], []⟩) ∧
      (([5] ++ [6, 7] : List Nat).take 3).length = 3) ∧
    (SocketReader.read 1 ⟨[], [RecvEvent.timedOut]⟩).1 = ReadResult.timedOut :=
  ⟨(C3_read_amended 2 ⟨[5, 6, 7], []⟩).1 (by decide),
   (C3_read_amended 3 ⟨[5], [RecvEvent.bytes [6, 7]]⟩).2.1 [6, 7] [] (by decide)
     (by decide) (by decide),
   (C3_read_amended 1 ⟨[], [RecvEvent.timedOut]⟩).2.2 (by decide) (by decide)⟩

/-- The classic frame of Scenario A. -/
def a7msg : Message :=
  { arbitration_id := 0x45, dlc := 5, data := [0x00, 0x01, 0x11, 0x01, 0x22], is_extended_id := false, is_fd := false }

/-- C7 fails as stated: the header struct is 28 bytes (2+2+8+4+4+1+1+2+4
with _pack_ = 1), so the encoded packet_size for a classic frame is
28 + 8 = 36, not the claimed 32. -/
theorem C7_counterexample :
    (send_header a7msg).packet_size = 36 ∧ (36 : Nat) ≠ 32 := by decide

/-- C7 amended: Scenario A encodes to header {frame_kind = 0x80,
frame_size = 5, frame_id_raw = 0x45, packet_size = 36} and wire payload
[0x00, 0x01, 0x11, 0x01, 0x22, 0, 0, 0]; in general every classic encode
with data length = dlc <= 8 emits an 8-byte payload that starts with the
data and is zero beyond dlc. -/
theorem C7_scenario_a_amended :
    (send_header a7msg =
      { packet_size := 36, frame_kind := CAN_FRAME, unused_tag := 0, timestamp_low := 0, timestamp_high := 0, channel := 0, frame_size := 5, frame_flags := 0, frame_id_raw := 0x45 } ∧
     send_payload a7msg = [0x00, 0x01, 0x11, 0x01, 0x22, 0, 0, 0] ∧
     (send_datagram a7msg).length = 36) ∧
    (∀ msg : Message, msg.is_fd = false → msg.data.length = msg.dlc →
      msg.dlc ≤ 8 →
      (send_payload msg).length = 8 ∧
      (send_payload msg).take msg.dlc = msg.data ∧
      (send_payload msg).drop msg.dlc = List.replicate (8 - msg.dlc) 0) := by
  refine ⟨by decide, fun msg hfd hlen hdlc => ?_⟩
  rw [send_payload, if_neg (by rw [hfd]; exact Bool.false_ne_true)]
  refine ⟨?_, ?_, ?_⟩
  · rw [List.length_append, List.length_replicate, hlen, FETCH_SIZE_STANDARD_FRAME]
    omega
  · rw [← hlen, List.take_left]
  · rw [List.drop_left' hlen, hlen, FETCH_SIZE_STANDARD_FRAME]

/-- Witness for C7 amended, instantiating the padding clause at Scenario A. -/
theorem C7_scenario_a_amended_witness :
    (send_payload a7msg).length = 8 ∧
    (send_payload a7msg).take 5 = [0x00, 0x01, 0x11, 0x01, 0x22] ∧
    (send_payload a7msg).drop 5 = List.replicate 3 0 :=
  C7_scenario_a_amended.2 a7msg rfl rfl (by decide)

end CanPeakGateway

namespace CanPeakGateway

/-- The FD frame with remote_frame set, used to witness C10. -/
def c10msg : Message :=
  { arbitration_id := 7, dlc := 2, data := [1, 2], is_extended_id := false, is_remote_frame := true, is_fd := true }

/-- C10: on the FD encode path the remote_frame flag is ignored entirely:
the produced header is identical to the one for the same frame with
remote_frame cleared, flag bit0 stays clear, and (for any arbitration id in
the 29-bit CAN range) frame_id_raw bit30 stays clear. -/
theorem C10_fd_ignores_remote (msg : Message) (hfd : msg.is_fd = true) :
    send_header msg = send_header { msg with is_remote_frame := false } ∧
    (send_header msg).frame_flags &&& FLAG_REMOTE_REQUEST = 0 ∧
    (msg.arbitration_id < 2 ^ 29 →
      (send_header msg).frame_id_raw &&& MASK_CAN_ID_REMOTE_REQUEST = 0) := by
  refine ⟨by simp [send_header, hfd], ?_, fun hid => ?_⟩
  · cases hext : msg.is_extended_id <;> cases herr : msg.is_error_frame <;>
      cases hbrs : msg.bitrate_switch <;>
        simp [send_header, hfd, hext, herr, hbrs, FLAG_REMOTE_REQUEST,
          FLAG_EXTENDED_IDENTIFIER, FLAG_ERROR_STATE, FLAG_BITRATE_SWITCH]
  · have hraw : (send_header msg).frame_id_raw = msg.arbitration_id % 2 ^ 32 := by
      cases hext : msg.is_extended_id <;> cases herr : msg.is_error_frame <;>
        cases hbrs : msg.bitrate_switch <;> simp [send_header, hfd, hext, herr, hbrs]
    rw [hraw, Nat.mod_eq_of_lt (lt_trans hid (by norm_num))]
    exact and_REMOTE_REQUEST_of_lt (lt_of_lt_of_le hid (by norm_num))

/-- Witness for C10 at a concrete FD frame with remote_frame = true. -/
theorem C10_fd_ignores_remote_witness :
    send_header c10msg = send_header { c10msg with is_remote_frame := false } ∧
    (send_header c10msg).frame_flags &&& FLAG_REMOTE_REQUEST = 0 ∧
    (send_header c10msg).frame_id_raw &&& MASK_CAN_ID_REMOTE_REQUEST = 0 :=
  ⟨(C10_fd_ignores_remote c10msg rfl).1, (C10_fd_ignores_remote c10msg rfl).2.1,
   (C10_fd_ignores_remote c10msg rfl).2.2 (by decide)⟩

/-- A valid classic-kind header whose datagram is cut short: the buffer
holds only the 28 header bytes and the next recv times out. -/
def c4hdr : MessageHeader :=
  { packet_size := 36, frame_kind := 0x80, unused_tag := 0, timestamp_low := 0, timestamp_high := 0, channel := 0, frame_size := 0, frame_flags := 0, frame_id_raw := 5 }

/-- Reader where the header read succeeds but the payload read times out. -/
def c4st : ReaderState := ⟨c4hdr.toBytes, [RecvEvent.timedOut]⟩

/-- C4 fails as stated: a timeout on the payload read is NOT turned into the
no-frame return value - the payload and CRC reads sit outside the
try/except TimeoutError block, so the TimeoutError propagates to the
caller. -/
theorem C4_counterexample :
    recv_internal c4st = ⟨.raisedTimeout, false, ⟨[], []⟩⟩ ∧
    RecvResult.raisedTimeout ≠ RecvResult.returned none false := by decide

/-- C4 amended: only a timeout on the 28-byte header read yields the
no-frame return value (none, false); a timeout on the payload read, or on
the 4-byte CRC read when one is performed, escapes _recv_internal as an
uncaught TimeoutError. -/
theorem C4_timeout_amended (st : ReaderState) :
    (∀ st1, SocketReader.read sizeofMessageHeader st = (.timedOut, st1) →
      recv_internal st = ⟨.returned none false, false, st1⟩) ∧
    (∀ header_data st1 h st2,
      SocketReader.read sizeofMessageHeader st = (.bytes header_data, st1) →
      from_buffer_copy header_data = some h →
      knownKind h.frame_kind = true →
      SocketReader.read (fetchSize h) st1 = (.timedOut, st2) →
      recv_internal st = ⟨.raisedTimeout, false, st2⟩) ∧
    (∀ header_data st1 h payload st2 st3,
      SocketReader.read sizeofMessageHeader st = (.bytes header_data, st1) →
      from_buffer_copy header_data = some h →
      h.frame_kind = CAN_FD_FRAME_CRC →
      SocketReader.read (fetchSize h) st1 = (.bytes payload, st2) →
      SocketReader.read FETCH_SIZE_OPTIONAL_CRC st2 = (.timedOut, st3) →
      recv_internal st = ⟨.raisedTimeout, false, st3⟩) := by
  refine ⟨fun st1 hto => ?_, fun header_data st1 h st2 hread hparse hknown hto => ?_,
    fun header_data st1 h payload st2 st3 hread hparse hk hpay hto => ?_⟩
  · simp [recv_internal, hto]
  · have hk : ((h.frame_kind = CAN_FRAME ∨ h.frame_kind = CAN_FRAME_CRC) ∨
        h.frame_kind = CAN_FD_FRAME) ∨ h.frame_kind = CAN_FD_FRAME_CRC := by
      simpa [knownKind] using hknown
    simp only [recv_internal, hread, hparse]
    rcases hk with ((hk | hk) | hk) | hk
    · rw [if_pos (Or.inl hk)]
      rw [show fetchSize h = FETCH_SIZE_STANDARD_FRAME from by simp [fetchSize, hk, CAN_FRAME, CAN_FD_FRAME, CAN_FD_FRAME_CRC]] at hto
      simp [finishDecode, hto]
    · rw [if_pos (Or.inr hk)]
      rw [show fetchSize h = FETCH_SIZE_STANDARD_FRAME from by simp [fetchSize, hk, CAN_FRAME_CRC, CAN_FD_FRAME, CAN_FD_FRAME_CRC]] at hto
      simp [finishDecode, hto]
    · rw [if_neg (by simp [hk, CAN_FRAME, CAN_FRAME_CRC, CAN_FD_FRAME]),
        if_pos (Or.inl hk)]
      rw [show fetchSize h = h.frame_size from by simp [fetchSize, hk]] at hto
      simp [finishDecode, hto]
    · rw [if_neg (by simp [hk, CAN_FRAME, CAN_FRAME_CRC, CAN_FD_FRAME_CRC]),
        if_pos (Or.inr hk)]
      rw [show fetchSize h = h.frame_size from by simp [fetchSize, hk]] at hto
      simp [finishDecode, hto]
  · simp only [recv_internal, hread, hparse]
    rw [if_neg (by simp [hk, CAN_FRAME, CAN_FRAME_CRC, CAN_FD_FRAME_CRC]),
      if_pos (Or.inr hk)]
    rw [show fetchSize h = h.frame_size from by simp [fetchSize, hk]] at hpay
    have hfc : fetchCrc h.frame_kind = true := by
      rw [hk]; decide
    rw [hfc]
    simp [finishDecode, hpay, hto]

/-- An FD-CRC header (0x91) with frame_size 2, whose payload sits in the
buffer but whose CRC read times out. -/
def c4crchdr : MessageHeader :=
  { packet_size := 34, frame_kind := 0x91, unused_tag := 0, timestamp_low := 0, timestamp_high := 0, channel := 0, frame_size := 2, frame_flags := 0, frame_id_raw := 5 }

/-- Reader where header and payload reads succeed and the CRC read times
out. -/
def c4crcst : ReaderState := ⟨c4crchdr.toBytes ++ [7, 7], [RecvEvent.timedOut]⟩

/-- Witness for C4 amended: a header-read timeout returns (none, false),
while a payload-read timeout and a CRC-read timeout raise. -/
theorem C4_timeout_amended_witness :
    recv_internal ⟨[], [RecvEvent.timedOut]⟩ =
      ⟨.returned none false, false, ⟨[], []⟩⟩ ∧
    recv_internal c4st = ⟨.raisedTimeout, false, ⟨[], []⟩⟩ ∧
    recv_internal c4crcst = ⟨.raisedTimeout, false, ⟨[], []⟩⟩ :=
  ⟨(C4_timeout_amended ⟨[], [RecvEvent.timedOut]⟩).1 ⟨[], []⟩ (by decide),
   (C4_timeout_amended c4st).2.1 c4hdr.toBytes ⟨[], [RecvEvent.timedOut]⟩ c4hdr
     ⟨[], []⟩ (by decide) (by decide) (by decide) (by decide),
   (C4_timeout_amended c4crcst).2.2 c4crchdr.toBytes ⟨[7, 7], [RecvEvent.timedOut]⟩
     c4crchdr [7, 7] ⟨[], [RecvEvent.timedOut]⟩ ⟨[], []⟩ (by decide) (by decide)
     (by decide) (by decide) (by decide)⟩

end CanPeakGateway

namespace CanPeakGateway

/-- When the payload read succeeds (and the CRC read succeeds whenever it is
performed), finishDecode returns the message built from the header, the base
message of the dispatch branch, and the first frame_size payload bytes. -/
theorem finishDecode_returns (st1 : ReaderState) (h : MessageHeader) (fc : Bool)
    (fs : Nat) (base : Message) (payload : List Nat) (st2 : ReaderState)
    (hpay : SocketReader.read fs st1 = (.bytes payload, st2))
    (hcrc : fc = true →
      ∃ crc st3, SocketReader.read FETCH_SIZE_OPTIONAL_CRC st2 = (.bytes crc, st3)) :
    ∃ stF, finishDecode st1 h fc fs base =
      ⟨.returned (some { base with
          arbitration_id := h.frame_id
          is_extended_id := h.frame_extended_id
          dlc := h.frame_size
          data := payload.take h.frame_size }) false, false, stF⟩ := by
  cases fc with
  | false => exact ⟨st2, by simp [finishDecode, hpay]⟩
  | true =>
    obtain ⟨crc, st3, hc⟩ := hcrc rfl
    exact ⟨st3, by simp [finishDecode, hpay, hc]⟩

/-- C9 amended: whenever the decode path accepts a datagram (known
frame_kind, every read satisfied in full), the returned message has
dlc = frame_size and payload length min(frame_size, fetch_size): the two are
equal for the FD kinds always, and for the classic kinds exactly when
frame_size is at most 8; a classic header with frame_size > 8 yields a
message whose data is truncated to 8 bytes, shorter than its dlc. -/
theorem C9_payload_length_amended (st : ReaderState) (header_data : List Nat)
    (st1 : ReaderState) (h : MessageHeader) (payload : List Nat) (st2 : ReaderState)
    (hread : SocketReader.read sizeofMessageHeader st = (.bytes header_data, st1))
    (hparse : from_buffer_copy header_data = some h)
    (hknown : knownKind h.frame_kind = true)
    (hpay : SocketReader.read (fetchSize h) st1 = (.bytes payload, st2))
    (hfull : payload.length = fetchSize h)
    (hcrc : fetchCrc h.frame_kind = true →
      ∃ crc st3, SocketReader.read FETCH_SIZE_OPTIONAL_CRC st2 = (.bytes crc, st3)) :
    ∃ m stF, recv_internal st = ⟨.returned (some m) false, false, stF⟩ ∧
      m.dlc = h.frame_size ∧
      m.data.length = min h.frame_size (fetchSize h) ∧
      ((h.frame_kind = CAN_FD_FRAME ∨ h.frame_kind = CAN_FD_FRAME_CRC) →
        m.data.length = m.dlc) ∧
      (h.frame_size ≤ FETCH_SIZE_STANDARD_FRAME → m.data.length = m.dlc) := by
  have hk : ((h.frame_kind = CAN_FRAME ∨ h.frame_kind = CAN_FRAME_CRC) ∨
      h.frame_kind = CAN_FD_FRAME) ∨ h.frame_kind = CAN_FD_FRAME_CRC := by
    simpa [knownKind] using hknown
  have hdlen : (payload.take h.frame_size).length = min h.frame_size (fetchSize h) := by
    rw [List.length_take, hfull]
  rcases hk with ((hk | hk) | hk) | hk
  all_goals simp only [recv_internal, hread, hparse]
  · rw [if_pos (Or.inl hk)]
    rw [show fetchSize h = FETCH_SIZE_STANDARD_FRAME from by
      simp [fetchSize, hk, CAN_FRAME, CAN_FD_FRAME, CAN_FD_FRAME_CRC]] at hpay hfull hdlen
    obtain ⟨stF, hfin⟩ := finishDecode_returns st1 h (fetchCrc h.frame_kind)
      FETCH_SIZE_STANDARD_FRAME { is_remote_frame := h.flag_remote_request_frame }
      payload st2 hpay hcrc
    refine ⟨_, stF, hfin, rfl, ?_, ?_, ?_⟩
    · rw [hdlen, show fetchSize h = FETCH_SIZE_STANDARD_FRAME from by
        simp [fetchSize, hk, CAN_FRAME, CAN_FD_FRAME, CAN_FD_FRAME_CRC]]
    · rintro (hcontra | hcontra) <;> (rw [hk] at hcontra; exact absurd hcontra (by decide))
    · intro hle
      rw [hdlen]
      exact Nat.min_eq_left hle
  · rw [if_pos (Or.inr hk)]
    rw [show fetchSize h = FETCH_SIZE_STANDARD_FRAME from by
      simp [fetchSize, hk, CAN_FRAME_CRC, CAN_FD_FRAME, CAN_FD_FRAME_CRC]] at hpay hfull hdlen
    obtain ⟨stF, hfin⟩ := finishDecode_returns st1 h (fetchCrc h.frame_kind)
      FETCH_SIZE_STANDARD_FRAME { is_remote_frame := h.flag_remote_request_frame }
      payload st2 hpay hcrc
    refine ⟨_, stF, hfin, rfl, ?_, ?_, ?_⟩
    · rw [hdlen, show fetchSize h = FETCH_SIZE_STANDARD_FRAME from by
        simp [fetchSize, hk, CAN_FRAME_CRC, CAN_FD_FRAME, CAN_FD_FRAME_CRC]]
    · rintro (hcontra | hcontra) <;> (rw [hk] at hcontra; exact absurd hcontra (by decide))
    · intro hle
      rw [hdlen]
      exact Nat.min_eq_left hle
  · rw [if_neg (by simp [hk, CAN_FRAME, CAN_FRAME_CRC, CAN_FD_FRAME]), if_pos (Or.inl hk)]
    have hfs : fetchSize h = h.frame_size := by simp [fetchSize, hk]
    rw [hfs] at hpay hfull hdlen ⊢
    obtain ⟨stF, hfin⟩ := finishDecode_returns st1 h (fetchCrc h.frame_kind)
      h.frame_size { is_fd := true, is_error_frame := h.flag_error_state_indicator, bitrate_switch := h.flag_activated_bitrate_switch }
      payload st2 hpay hcrc
    exact ⟨_, stF, hfin, rfl, hdlen, fun _ => hdlen.trans (Nat.min_self _),
      fun _ => hdlen.trans (Nat.min_self _)⟩
  · rw [if_neg (by simp [hk, CAN_FRAME, CAN_FRAME_CRC, CAN_FD_FRAME_CRC]), if_pos (Or.inr hk)]
    have hfs : fetchSize h = h.frame_size := by simp [fetchSize, hk]
    rw [hfs] at hpay hfull hdlen ⊢
    obtain ⟨stF, hfin⟩ := finishDecode_returns st1 h (fetchCrc h.frame_kind)
      h.frame_size { is_fd := true, is_error_frame := h.flag_error_state_indicator, bitrate_switch := h.flag_activated_bitrate_switch }
      payload st2 hpay hcrc
    exact ⟨_, stF, hfin, rfl, hdlen, fun _ => hdlen.trans (Nat.min_self _),
      fun _ => hdlen.trans (Nat.min_self _)⟩

end CanPeakGateway

namespace CanPeakGateway

/-- A classic-kind header whose frame_size (9) exceeds the 8-byte classic
fetch size, followed by the 8 payload bytes the decoder reads. -/
def c9hdr : MessageHeader :=
  { packet_size := 36, frame_kind := 0x80, unused_tag := 0, timestamp_low := 0, timestamp_high := 0, channel := 0, frame_size := 9, frame_flags := 0, frame_id_raw := 5 }

/-- Reader holding that datagram with its full 8-byte payload available. -/
def c9st : ReaderState := ⟨c9hdr.toBytes ++ [1, 2, 3, 4, 5, 6, 7, 8], []⟩

/-- The message the decoder returns for c9st: dlc 9 but only 8 data bytes. -/
def c9decoded : Message :=
  { arbitration_id := 5, dlc := 9, data := [1, 2, 3, 4, 5, 6, 7, 8], is_extended_id := false }

/-- C9 fails as stated: a classic datagram whose frame_size field is 9 is
accepted with every read satisfied, yet the returned message has dlc = 9 and
only 8 payload bytes, so len(data) differs from dlc. -/
theorem C9_counterexample :
    recv_internal c9st = ⟨.returned (some c9decoded) false, false, ⟨[], []⟩⟩ ∧
    c9decoded.dlc = 9 ∧ c9decoded.data.length = 8 ∧ (8 : Nat) ≠ 9 := by decide

/-- A classic-kind header with frame_size 5 within the 8-byte fetch size. -/
def c9whdr : MessageHeader :=
  { packet_size := 36, frame_kind := 0x80, unused_tag := 0, timestamp_low := 0, timestamp_high := 0, channel := 0, frame_size := 5, frame_flags := 0, frame_id_raw := 3 }

/-- Reader holding that datagram with its 8 payload bytes. -/
def c9wst : ReaderState := ⟨c9whdr.toBytes ++ [1, 2, 3, 4, 5, 6, 7, 8], []⟩

/-- Witness for C9 amended at a concrete classic datagram. -/
theorem C9_payload_length_amended_witness :
    ∃ m stF, recv_internal c9wst = ⟨.returned (some m) false, false, stF⟩ ∧
      m.dlc = c9whdr.frame_size ∧
      m.data.length = min c9whdr.frame_size (fetchSize c9whdr) ∧
      ((c9whdr.frame_kind = CAN_FD_FRAME ∨ c9whdr.frame_kind = CAN_FD_FRAME_CRC) →
        m.data.length = m.dlc) ∧
      (c9whdr.frame_size ≤ FETCH_SIZE_STANDARD_FRAME → m.data.length = m.dlc) :=
  C9_payload_length_amended c9wst c9whdr.toBytes ⟨[1, 2, 3, 4, 5, 6, 7, 8], []⟩
    c9whdr [1, 2, 3, 4, 5, 6, 7, 8] ⟨[], []⟩ (by decide) (by decide) (by decide)
    (by decide) (by decide) (fun hcontra => absurd hcontra (by decide))

end CanPeakGateway

namespace CanPeakGateway

/-- Characterization of the encoder's header on the classic path with
extended_id cleared: frame_kind CAN_FRAME, packet_size 28 + 8 = 36, flag
bit0 and frame_id_raw bit30 iff remote, plus the error / bitrate-switch
flag contributions. -/
theorem send_header_classic (msg : Message) (hfd : msg.is_fd = false)
    (hext : msg.is_extended_id = false) :
    send_header msg =
      { packet_size := 36
        frame_kind := CAN_FRAME
        unused_tag := 0
        timestamp_low := 0
        timestamp_high := 0
        channel := 0
        frame_size := msg.dlc % 2 ^ 8
        frame_flags := (if msg.is_remote_frame then FLAG_REMOTE_REQUEST else 0) |||
          ((if msg.is_error_frame then FLAG_ERROR_STATE else 0) |||
            (if msg.bitrate_switch then FLAG_BITRATE_SWITCH else 0))
        frame_id_raw := (msg.arbitration_id % 2 ^ 32) |||
          (if msg.is_remote_frame then MASK_CAN_ID_REMOTE_REQUEST else 0) } := by
  cases hrem : msg.is_remote_frame <;> cases herr : msg.is_error_frame <;>
    cases hbrs : msg.bitrate_switch <;>
      simp [send_header, hfd, hext, hrem, herr, hbrs, sizeofMessageHeader,
        FETCH_SIZE_STANDARD_FRAME, FLAG_REMOTE_REQUEST, FLAG_ERROR_STATE,
        FLAG_BITRATE_SWITCH, Nat.zero_or, Nat.or_zero, Nat.or_assoc]

/-- Decoding a single datagram consisting of a classic-kind (0x80) header
and an 8-byte payload: the reader consumes it fully and the decoder returns
the message read off the header fields. -/
theorem recv_of_classic_datagram (H : MessageHeader) (P : List Nat)
    (hk : H.frame_kind = CAN_FRAME) (hplen : P.length = 8)
    (hb : from_buffer_copy H.toBytes = some H) :
    recv_internal ⟨[], [RecvEvent.bytes (H.toBytes ++ P)]⟩ =
      ⟨.returned (some { arbitration_id := H.frame_id
                         is_extended_id := H.frame_extended_id
                         dlc := H.frame_size
                         data := P.take H.frame_size
                         is_remote_frame := H.flag_remote_request_frame
                         is_error_frame := false
                         is_fd := false
                         bitrate_switch := false }) false, false, ⟨[], []⟩⟩ := by
  have hread : SocketReader.read sizeofMessageHeader
      ⟨[], [RecvEvent.bytes (H.toBytes ++ P)]⟩ = (.bytes H.toBytes, ⟨P, []⟩) := by
    rw [SocketReader.read, if_pos (by simp [sizeofMessageHeader])]
    simp only [List.nil_append]
    rw [List.take_left' (by rw [toBytes_length]; rfl),
      List.drop_left' (by rw [toBytes_length]; rfl)]
  have hpay : SocketReader.read FETCH_SIZE_STANDARD_FRAME ⟨P, []⟩ =
      (.bytes P, ⟨[], []⟩) := by
    rw [SocketReader.read, if_neg (by simp [hplen, FETCH_SIZE_STANDARD_FRAME])]
    rw [List.take_of_length_le (by rw [hplen]; rfl),
      List.drop_eq_nil_of_le (by rw [hplen]; rfl)]
  have hfc : fetchCrc H.frame_kind = false := by rw [hk]; decide
  simp only [recv_internal, hread, hb]
  rw [if_pos (Or.inl hk), hfc]
  simp [finishDecode, hpay]

/-- C2 fails as stated: the classic frame {id = 0x1FFFFFFF, extended} is a
valid classic CanFrame per the claim's bounds (dlc 0, id < 2^29), but
decode(encode(frame)) returns arbitration_id 0x0FFFFFFF (the encoder's
28-bit MASK_CAN_ID) and extended_id false (the encoder never sets the bit31
marker the decoder reads). -/
theorem C2_counterexample :
    recv_internal ⟨[], [RecvEvent.bytes (send_datagram c5msg)]⟩ =
      ⟨.returned (some c5decoded) false, false, ⟨[], []⟩⟩ ∧
    c5msg.arbitration_id = 0x1FFFFFFF ∧ c5msg.is_extended_id = true ∧
    c5decoded.arbitration_id ≠ c5msg.arbitration_id ∧
    c5decoded.is_extended_id ≠ c5msg.is_extended_id := by decide

/-- C2 amended: for classic frames with extended_id = false, arbitration id
below 2^28, dlc at most 8 and data of length dlc, feeding the encoder's
datagram to the decoder reproduces arbitration_id, dlc, data, extended_id
and remote_frame exactly.  (The id bound is 2^28, not the claimed 2^29,
because MASK_CAN_ID keeps only 28 bits; extended_id = true does not survive
the round trip at all, see the counterexample.) -/
theorem C2_roundtrip_amended (msg : Message) (hfd : msg.is_fd = false)
    (hext : msg.is_extended_id = false) (hid : msg.arbitration_id < 2 ^ 28)
    (hdlc : msg.dlc ≤ 8) (hlen : msg.data.length = msg.dlc) :
    recv_internal ⟨[], [RecvEvent.bytes (send_datagram msg)]⟩ =
      ⟨.returned (some { arbitration_id := msg.arbitration_id
                         dlc := msg.dlc
                         data := msg.data
                         is_extended_id := false
                         is_remote_frame := msg.is_remote_frame
                         is_error_frame := false
                         is_fd := false
                         bitrate_switch := false }) false, false, ⟨[], []⟩⟩ := by
  have hplen : (send_payload msg).length = 8 := by
    rw [send_payload, if_neg (by rw [hfd]; exact Bool.false_ne_true),
      List.length_append, List.length_replicate, hlen, FETCH_SIZE_STANDARD_FRAME]
    omega
  have hdr := send_header_classic msg hfd hext
  have hflagbound : ((if msg.is_remote_frame then FLAG_REMOTE_REQUEST else 0) |||
      ((if msg.is_error_frame then FLAG_ERROR_STATE else 0) |||
        (if msg.bitrate_switch then FLAG_BITRATE_SWITCH else 0))) < 65536 := by
    cases msg.is_remote_frame <;> cases msg.is_error_frame <;>
      cases msg.bitrate_switch <;> decide
  have hidmod : msg.arbitration_id % 2 ^ 32 = msg.arbitration_id :=
    Nat.mod_eq_of_lt (lt_trans hid (by norm_num))
  have hrawbound : ((msg.arbitration_id % 2 ^ 32) |||
      (if msg.is_remote_frame then MASK_CAN_ID_REMOTE_REQUEST else 0)) < 4294967296 := by
    have h1 : msg.arbitration_id % 2 ^ 32 < 2 ^ 32 :=
      Nat.mod_lt _ (by norm_num)
    have h2 : (if msg.is_remote_frame then MASK_CAN_ID_REMOTE_REQUEST else 0) < 2 ^ 32 := by
      cases msg.is_remote_frame <;> decide
    have := Nat.or_lt_two_pow h1 h2
    simpa using this
  have hb : from_buffer_copy (send_header msg).toBytes = some (send_header msg) := by
    refine from_buffer_copy_toBytes _ ?_ ?_ ?_ ?_ ?_ ?_ ?_ ?_ ?_
    · rw [hdr]; exact (by norm_num : (36 : Nat) < 65536)
    · rw [hdr]; exact (by norm_num : (128 : Nat) < 65536)
    · rw [hdr]; exact (by norm_num : (0 : Nat) < 18446744073709551616)
    · rw [hdr]; exact (by norm_num : (0 : Nat) < 4294967296)
    · rw [hdr]; exact (by norm_num : (0 : Nat) < 4294967296)
    · rw [hdr]; exact (by norm_num : (0 : Nat) < 256)
    · rw [hdr]; exact Nat.mod_lt _ (by norm_num)
    · rw [hdr]; exact hflagbound
    · rw [hdr]; exact hrawbound
  have hkind : (send_header msg).frame_kind = CAN_FRAME := by rw [hdr]
  have hstep : recv_internal ⟨[], [RecvEvent.bytes (send_datagram msg)]⟩ =
      ⟨.returned (some { arbitration_id := (send_header msg).frame_id
                         is_extended_id := (send_header msg).frame_extended_id
                         dlc := (send_header msg).frame_size
                         data := (send_payload msg).take (send_header msg).frame_size
                         is_remote_frame := (send_header msg).flag_remote_request_frame
                         is_error_frame := false
                         is_fd := false
                         bitrate_switch := false }) false, false, ⟨[], []⟩⟩ :=
    recv_of_classic_datagram (send_header msg) (send_payload msg) hkind hplen hb
  have hraw : (send_header msg).frame_id_raw = (msg.arbitration_id % 2 ^ 32) |||
      (if msg.is_remote_frame then MASK_CAN_ID_REMOTE_REQUEST else 0) := by
    rw [hdr]
  have hflags : (send_header msg).frame_flags =
      (if msg.is_remote_frame then FLAG_REMOTE_REQUEST else 0) |||
        ((if msg.is_error_frame then FLAG_ERROR_STATE else 0) |||
          (if msg.bitrate_switch then FLAG_BITRATE_SWITCH else 0)) := by
    rw [hdr]
  have hsize : (send_header msg).frame_size = msg.dlc := by
    rw [hdr]
    exact Nat.mod_eq_of_lt (by omega)
  have hfid : (send_header msg).frame_id = msg.arbitration_id := by
    simp only [MessageHeader.frame_id]
    rw [hraw, hidmod]
    cases hrem : msg.is_remote_frame
    · rw [if_neg (by decide), Nat.or_zero]
      exact and_MASK_CAN_ID_of_lt hid
    · rw [if_pos rfl]
      exact or_bit30_and_MASK_CAN_ID hid
  have hfextid : (send_header msg).frame_extended_id = false := by
    simp only [MessageHeader.frame_extended_id]
    rw [hraw, hidmod]
    cases hrem : msg.is_remote_frame
    · rw [if_neg (by decide), Nat.or_zero,
        and_EXTENDED_FRAME_of_lt (lt_trans hid (by norm_num))]
      decide
    · rw [if_pos rfl, or_bit30_and_EXTENDED_FRAME hid]
      decide
  have hflagrr : (send_header msg).flag_remote_request_frame = msg.is_remote_frame := by
    simp only [MessageHeader.flag_remote_request_frame]
    rw [hflags]
    cases hrem : msg.is_remote_frame <;> cases herr : msg.is_error_frame <;>
      cases hbrs : msg.bitrate_switch <;> decide
  have hdata : (send_payload msg).take msg.dlc = msg.data := by
    rw [send_payload, if_neg (by rw [hfd]; exact Bool.false_ne_true), ← hlen,
      List.take_left]
  rw [hstep, hfid, hfextid, hflagrr, hsize, hdata]

/-- A concrete in-range classic frame exercising the amended round trip. -/
def c2wmsg : Message :=
  { arbitration_id := 0x123, dlc := 3, data := [7, 8, 9], is_extended_id := false, is_remote_frame := true, is_error_frame := true, bitrate_switch := true, is_fd := false }

/-- Witness for C2 amended at a concrete classic frame with remote set. -/
theorem C2_roundtrip_amended_witness :
    recv_internal ⟨[], [RecvEvent.bytes (send_datagram c2wmsg)]⟩ =
      ⟨.returned (some { arbitration_id := c2wmsg.arbitration_id
                         dlc := c2wmsg.dlc
                         data := c2wmsg.data
                         is_extended_id := false
                         is_remote_frame := c2wmsg.is_remote_frame
                         is_error_frame := false
                         is_fd := false
                         bitrate_switch := false }) false, false, ⟨[], []⟩⟩ :=
  C2_roundtrip_amended c2wmsg rfl rfl (by decide) (by decide) (by decide)

end CanPeakGateway
